import Mathlib

/-!
Shallow embedding of the egg-digital AR demo application
(`src/src/components/MindAR.tsx`, `src/src/components/CameraPermission.tsx`,
`src/src/App.tsx`).

The application is UI orchestration around browser media APIs and two external
libraries.  The embedding models the pure state-update logic of the component:
the diagnostics log buffer, the camera-acquisition retry policy of `startVideo`,
the step sequencing and abort behaviour of `handleStartAR`, the tracking
controller configuration and its `onUpdate` gating, the anchor update
`updateWorldMatrix`, the unmount cleanup, the animation loop, and the
`isMirrored` computation.  External effects (getUserMedia, WebGL, the MindAR
engine) are modelled by boolean environments saying which calls succeed.
-/

namespace EggDigital

/-- Formatted log entry `“${timestamp}: ${message}”` built by `addLog`
(MindAR.tsx line 119). -/
def fmtLog (timestamp message : String) : String :=
  timestamp ++ ": " ++ message

/-- `addLog` state update (MindAR.tsx lines 116-122):
`setLogs(prev => [`${timestamp}: ${message}`, ...prev].slice(0, 100))` —
the new entry is put at the front and the list truncated to 100 entries. -/
def addLog (timestamp message : String) (prev : List String) : List String :=
  (fmtLog timestamp message :: prev).take 100

/-- The logs state after a sequence of `addLog` calls (timestamp, message),
starting from the initial state `useState<string[]>([])` (MindAR.tsx line 102). -/
def runLogs (calls : List (String × String)) : List String :=
  calls.foldl (fun st c => addLog c.1 c.2 st) []

/-- A concrete full log buffer: 100 distinct entries. -/
def fullLogs : List String := (List.range 100).map toString

/-- Entry of the `cameras` state list (`MediaDeviceInfo` as used by the
component: only `deviceId` and `label` are read). -/
structure MediaDeviceInfo where
  deviceId : String
  label : String
deriving DecidableEq

/-- `startsWithL pat s` is true when `pat` occurs at the head of `s`. -/
def startsWithL : List Char → List Char → Bool
  | [], _ => true
  | _ :: _, [] => false
  | p :: ps, c :: cs => p == c && startsWithL ps cs

/-- `hasSubL pat s` is true when `pat` occurs contiguously somewhere in `s`. -/
def hasSubL (pat : List Char) : List Char → Bool
  | [] => startsWithL pat []
  | c :: cs => startsWithL pat (c :: cs) || hasSubL pat cs

/-- The test `/back|rear|environment/i.test(label)` (MindAR.tsx line 864):
case-insensitive containment of one of the three words. -/
def isLikelyRear (label : String) : Bool :=
  let l := label.toLower.data
  hasSubL "back".data l || hasSubL "rear".data l || hasSubL "environment".data l

/-- The `isMirrored` useMemo computation (MindAR.tsx lines 853-869):
mirrored unless the selected camera is found and its label looks rear-facing. -/
def isMirrored (cameras : List MediaDeviceInfo) (selectedCameraId : String) : Bool :=
  if selectedCameraId = "" || cameras.isEmpty then true
  else
    match cameras.find? (fun cam => cam.deviceId == selectedCameraId) with
    | none => true
    | some cam => if cam.label = "" then true else !(isLikelyRear cam.label)

/-- A capture resolution option (MindAR.tsx lines 80-92); width = height = 0
encodes "Default (Fit Screen)". -/
structure ResolutionOption where
  label : String
  width : Nat
  height : Nat
deriving DecidableEq

/-- The `resolutionOptions` list (MindAR.tsx lines 86-92). -/
def resolutionOptions : List ResolutionOption :=
  [⟨"Default (Fit Screen)", 0, 0⟩, ⟨"640x480", 640, 480⟩,
   ⟨"1280x720", 1280, 720⟩, ⟨"1920x1080", 1920, 1080⟩]

/-- `selectedResolution.width > 0 && selectedResolution.height > 0`
(MindAR.tsx line 218). -/
def useSpecificResolution (res : ResolutionOption) : Bool :=
  decide (0 < res.width) && decide (0 < res.height)

/-- The video constraints handed to `getUserMedia`: exact device id plus
optional ideal width/height (MindAR.tsx lines 209-223). -/
structure MediaConstraints where
  deviceId : String
  width : Option Nat
  height : Option Nat
deriving DecidableEq

/-- The constraints of the first acquisition attempt in `startVideo`. -/
def primaryConstraints (camId : String) (res : ResolutionOption) : MediaConstraints :=
  { deviceId := camId,
    width := if useSpecificResolution res then some res.width else none,
    height := if useSpecificResolution res then some res.height else none }

/-- The retry constraints: `delete constraints.video.width/height`
(MindAR.tsx lines 273-274). -/
def relaxedConstraints (camId : String) : MediaConstraints :=
  { deviceId := camId, width := none, height := none }

/-- Environment describing the browser media stack: whether `getUserMedia`
succeeds for given constraints, and whether the subsequent metadata-load and
`video.play()` phase succeeds for the stream acquired with those constraints. -/
structure VideoEnv where
  acquire : MediaConstraints → Bool
  playback : MediaConstraints → Bool

/-- An acquisition attempt succeeds as a whole when both `getUserMedia` and
the metadata/play phase succeed (they share one `try` block). -/
def attemptOk (env : VideoEnv) (c : MediaConstraints) : Bool :=
  env.acquire c && env.playback c

/-- Result of `startVideo`: the returned boolean, the list of `getUserMedia`
attempts in order, and whether an acquired stream's tracks are still running /
still assigned to the video element when the function returns. -/
structure VideoOutcome where
  ok : Bool
  attempts : List MediaConstraints
  tracksLive : Bool
  srcAssigned : Bool
deriving DecidableEq

/-- The retry branch of `startVideo` (MindAR.tsx lines 271-289): one more
`getUserMedia` with the relaxed constraints; on acquisition failure the stream
of a previously successful acquisition (if any) is left untouched. -/
def startVideoRetry (env : VideoEnv) (c1 c2 : MediaConstraints)
    (acquired1 : Bool) : VideoOutcome :=
  if env.acquire c2 then
    if env.playback c2 then ⟨true, [c1, c2], true, true⟩
    else ⟨false, [c1, c2], true, true⟩
  else ⟨false, [c1, c2], acquired1, acquired1⟩

/-- `startVideo` (MindAR.tsx lines 194-295).  Guard failures (missing video
element, no selected camera) return false with no attempt; otherwise the
primary constraints are tried, and on failure exactly one relaxed retry is made
when a specific resolution had been requested.  A stream that was acquired but
failed the metadata/play phase stays assigned with live tracks. -/
def startVideo (env : VideoEnv) (hasVideoElement : Bool) (selectedCameraId : String)
    (res : ResolutionOption) : VideoOutcome :=
  if hasVideoElement = false then ⟨false, [], false, false⟩
  else if selectedCameraId = "" then ⟨false, [], false, false⟩
  else
    let c1 := primaryConstraints selectedCameraId res
    let c2 := relaxedConstraints selectedCameraId
    if env.acquire c1 then
    if env.playback c1 then ⟨true, [c1], true, true⟩
    else if useSpecificResolution res then startVideoRetry env c1 c2 true
    else ⟨false, [c1], true, true⟩
    else if useSpecificResolution res then startVideoRetry env c1 c2 false
    else ⟨false, [c1], false, false⟩

/-- Environment for the whole `handleStartAR` sequence: the media stack plus
success flags for the canvas/renderer step, the controller construction, the
marker registration and the camera setup.  (`initMarker` and `composeScene`
cannot fail: `initMarker` assigns the marker structure unconditionally and
`composeScene` only checks that the marker exists.) -/
structure AREnv where
  acquire : MediaConstraints → Bool
  playback : MediaConstraints → Bool
  canvasOk : Bool
  controllerOk : Bool
  registerOk : Bool
  cameraOk : Bool

/-- The media-stack part of an `AREnv`. -/
def AREnv.videoEnv (env : AREnv) : VideoEnv := ⟨env.acquire, env.playback⟩

/-- Result of `handleStartAR`: which of the seven steps were executed (in
order), the two flags, and the state of the acquired stream. -/
structure ARResult where
  executedSteps : List Nat
  startARFlag : Bool
  arReadyFlag : Bool
  tracksLive : Bool
  srcAssigned : Bool
deriving DecidableEq

/-- `handleStartAR` (MindAR.tsx lines 637-725).  Steps in order: 1 startVideo,
2 startCanvas, 3 initMarker (cannot fail), 4 initController, 5 registerMarker,
6 setupCamera, 7 composeScene (cannot fail once the marker is set).  Each
failing step aborts with `setStartAR(false)`; aborts at steps 2-6 also stop the
stream's tracks and clear `srcObject`, while the step-1 abort (lines 646-650)
returns without touching the stream. -/
def handleStartAR (env : AREnv) (hasVideoElement : Bool) (camId : String)
    (res : ResolutionOption) : ARResult :=
  let v := startVideo env.videoEnv hasVideoElement camId res
  if v.ok = false then ⟨[1], false, false, v.tracksLive, v.srcAssigned⟩
  else if env.canvasOk = false then ⟨[1, 2], false, false, false, false⟩
  else if env.controllerOk = false then ⟨[1, 2, 3, 4], false, false, false, false⟩
  else if env.registerOk = false then ⟨[1, 2, 3, 4, 5], false, false, false, false⟩
  else if env.cameraOk = false then ⟨[1, 2, 3, 4, 5, 6], false, false, false, false⟩
  else ⟨[1, 2, 3, 4, 5, 6, 7], true, true, v.tracksLive, v.srcAssigned⟩

/-- A 4x4 matrix in THREE's column-major 16-element representation
(`Matrix4.elements` / `fromArray`), with integer entries standing for the
numeric values. -/
abbrev Mat4 := List Int

/-- Entry at row `r`, column `c` of a column-major matrix. -/
def matGet (m : Mat4) (r c : Nat) : Int := m.getD (c * 4 + r) 0

/-- Column-major 4x4 matrix product, as in `THREE.Matrix4.multiply`
(`a.multiply(b)` is `a * b`). -/
def matMul (a b : Mat4) : Mat4 :=
  (List.range 16).map fun i =>
    (List.range 4).foldl (fun acc k => acc + matGet a (i % 4) k * matGet b k (i / 4)) 0

/-- The identity matrix (`new THREE.Matrix4()`); diagonal entries are the
indices with `i % 5 = 0`, exactly the check used in MindAR.tsx line 371. -/
def identityMat4 : Mat4 := (List.range 16).map fun i => if i % 5 = 0 then 1 else 0

/-- The state of the anchor `THREE.Object3D`: its visibility flag and its
matrix (matrixAutoUpdate is disabled, the matrix is written directly). -/
structure Anchor where
  visible : Bool
  matrix : Mat4
deriving DecidableEq

/-- The local `ARMarker` structure (MindAR.tsx lines 10-17): postMatrix,
anchor, target index and the target-file path. -/
structure ARMarker where
  postMatrix : Mat4
  anchor : Anchor
  targetIndex : Nat
  targetSrc : String
deriving DecidableEq

/-- `initMarker` (MindAR.tsx lines 425-441): identity postMatrix, an invisible
anchor with identity matrix, target index 0, fixed target source. -/
def initMarker : ARMarker :=
  { postMatrix := identityMat4,
    anchor := { visible := false, matrix := identityMat4 },
    targetIndex := 0,
    targetSrc := "./data/targets.mind" }

/-- `updateWorldMatrix` (MindAR.tsx lines 380-419).  Without a marker it
returns immediately.  Otherwise the anchor's visibility is set to whether a
matrix was delivered; when one was, the anchor matrix becomes
`worldMatrix.multiply(postMatrix)`, and when none was, the matrix is left
untouched. -/
def updateWorldMatrix (marker? : Option ARMarker) (worldMatrixUpdate : Option Mat4) :
    Option ARMarker :=
  match marker? with
  | none => none
  | some marker =>
    match worldMatrixUpdate with
    | some w =>
      some { marker with
             anchor := { visible := true, matrix := matMul w marker.postMatrix } }
    | none =>
      some { marker with anchor := { marker.anchor with visible := false } }

/-- The configuration passed to `new window.MINDAR.IMAGE.Controller`
(MindAR.tsx lines 474-493). -/
structure ControllerConfig where
  inputWidth : Nat
  inputHeight : Nat
  maxTrack : Nat
deriving DecidableEq

/-- The controller configuration computed by `initController` (MindAR.tsx
lines 448-504): resolution hint from the selected resolution when specific,
otherwise the video dimensions with the window as fallback (JS `||` on 0);
`maxTrack` is the literal 1. -/
def initControllerConfig (videoWidth videoHeight windowWidth windowHeight : Nat)
    (res : ResolutionOption) : ControllerConfig :=
  if 0 < res.width ∧ 0 < res.height then
    ⟨res.width, res.height, 1⟩
  else
    ⟨if videoWidth ≠ 0 then videoWidth else windowWidth,
     if videoHeight ≠ 0 then videoHeight else windowHeight, 1⟩

/-- An `onUpdate` event from the MindAR controller: its `type` tag, the
`targetIndex` it concerns and the delivered world matrix (null when the
target was lost). -/
structure UpdateEvent where
  type : String
  targetIndex : Nat
  worldMatrix : Option Mat4

/-- The `onUpdate` callback of the controller (MindAR.tsx lines 484-492):
only events of type "updateMatrix", with a marker present whose target index
equals the event's, invoke `updateWorldMatrix`.  The boolean reports whether
`updateWorldMatrix` was invoked. -/
def onUpdate (marker? : Option ARMarker) (ev : UpdateEvent) :
    Option ARMarker × Bool :=
  match marker? with
  | none => (none, false)
  | some marker =>
    if ev.type = "updateMatrix" then
      if marker.targetIndex = ev.targetIndex then
        (updateWorldMatrix (some marker) ev.worldMatrix, true)
      else (some marker, false)
    else (some marker, false)

/-- A camera-stream track with its running/stopped state. -/
structure MediaTrack where
  live : Bool
deriving DecidableEq

/-- `track.stop()`. -/
def stopTrack (t : MediaTrack) : MediaTrack := { t with live := false }

/-- The ref-held component state visible to the unmount cleanup effect. -/
structure ComponentState where
  animationFrameId : Option Nat
  srcObject : Option (List MediaTrack)
  rendererSet : Bool
  sceneSet : Bool
  cameraSet : Bool
  markerSet : Bool
  controllerSet : Bool
deriving DecidableEq

/-- What the unmount cleanup produced: the final state, the animation-frame
ids passed to `cancelAnimationFrame`, and the stopped tracks of the released
stream. -/
structure CleanupResult where
  state : ComponentState
  cancelledIds : List Nat
  stoppedTracks : List MediaTrack
deriving DecidableEq

/-- The unmount cleanup effect (MindAR.tsx lines 809-848): cancel and clear a
pending animation frame, stop every track of the video's stream and clear
`srcObject`, dispose the renderer and null out all refs. -/
def unmountCleanup (s : ComponentState) : CleanupResult :=
  let cancelled := match s.animationFrameId with
    | some fid => [fid]
    | none => []
  let stopped := match s.srcObject with
    | some ts => ts.map stopTrack
    | none => []
  { state := { animationFrameId := none, srcObject := none, rendererSet := false,
               sceneSet := false, cameraSet := false, markerSet := false,
               controllerSet := false },
    cancelledIds := cancelled, stoppedTracks := stopped }

/-- Environment of the animation loop: which iterations raise inside
`arController.processVideo` and which inside `renderer.render`. -/
structure LoopEnv where
  processThrows : Nat → Bool
  renderThrows : Nat → Bool

/-- State visible to one animation-loop iteration. -/
structure LoopState where
  isLooping : Bool
  animationFrameId : Option Nat
  arReady : Bool
  startAR : Bool
deriving DecidableEq

/-- What one iteration did: how many frames it processed, how many renders it
issued, how many further iterations it scheduled. -/
structure IterTrace where
  processed : Nat
  rendered : Nat
  scheduled : Nat
deriving DecidableEq

/-- One iteration of `animateScene` (MindAR.tsx lines 759-788), at iteration
counter `n`; the id returned by `requestAnimationFrame` is modelled as `n+1`.
When `isLooping` was cleared the iteration only clears the frame ref.  An
exception in processVideo or render stops the loop, clears the frame ref and
resets both flags. -/
def animateScene (env : LoopEnv) (n : Nat) (s : LoopState) : LoopState × IterTrace :=
  if s.isLooping = false then ({ s with animationFrameId := none }, ⟨0, 0, 0⟩)
  else if env.processThrows n then
    (⟨false, none, false, false⟩, ⟨0, 0, 0⟩)
  else if env.renderThrows n then
    (⟨false, none, false, false⟩, ⟨1, 0, 0⟩)
  else ({ s with animationFrameId := some (n + 1) }, ⟨1, 1, 1⟩)

/-- The display's refresh driver: while a callback is scheduled
(`animationFrameId` is set), fire it; collect the per-iteration traces.
`fuel` bounds the number of refresh opportunities. -/
def runLoop (env : LoopEnv) : Nat → Nat → LoopState → LoopState × List IterTrace
  | 0, _, s => (s, [])
  | fuel + 1, n, s =>
    match s.animationFrameId with
    | none => (s, [])
    | some _ =>
      let st := animateScene env n s
      let rest := runLoop env fuel (n + 1) st.1
      (rest.1, st.2 :: rest.2)

/-- One caught-failure handling site of the application, with flags read from
its handler code: whether the failure is written to the on-screen or browser
console log, and whether a blocking `alert` is raised there. -/
structure FailureHandler where
  site : String
  logged : Bool
  alerted : Bool
deriving DecidableEq

/-- Every caught-failure handling site of the application and what it does.
Sites and flags transcribed from the sources:
* App.tsx `initLiff` catch: `console.error` only.
* CameraPermission.tsx lines 16-18 catch: `console.error` only.
* MindAR.tsx `setupCameras` no-devices branch (148-149) and catch (151-155):
  `addLog` + `alert`.
* MindAR.tsx `startVideo` stop-previous-stream catch (233-235): `addLog` only.
* MindAR.tsx `startVideo` main catch: `addLog`; `alert` on the no-retry path
  (292) and on retry failure (286), but not when the retry recovers (275-281).
* MindAR.tsx `startCanvas` catch (326-331), `initController` catch (497-502),
  `registerMarker` invalid-data branch (525-528) and catch (535-540),
  `setupCamera` catch (573-578), animation-loop catch (777-786): `addLog` +
  `alert`.
* MindAR.tsx unmount-cleanup stream-stop catch (827-829): `addLog` only. -/
def failureHandlers : List FailureHandler :=
  [⟨"App.initLiff.catch", true, false⟩,
   ⟨"CameraPermission.requestPermission.catch", true, false⟩,
   ⟨"MindAR.setupCameras.noVideoDevices", true, true⟩,
   ⟨"MindAR.setupCameras.catch", true, true⟩,
   ⟨"MindAR.startVideo.stopPreviousStream.catch", true, false⟩,
   ⟨"MindAR.startVideo.catch.noRetryPath", true, true⟩,
   ⟨"MindAR.startVideo.catch.retryFailed", true, true⟩,
   ⟨"MindAR.startVideo.catch.retryRecovered", true, false⟩,
   ⟨"MindAR.startCanvas.catch", true, true⟩,
   ⟨"MindAR.initController.catch", true, true⟩,
   ⟨"MindAR.registerMarker.invalidTargetData", true, true⟩,
   ⟨"MindAR.registerMarker.catch", true, true⟩,
   ⟨"MindAR.setupCamera.catch", true, true⟩,
   ⟨"MindAR.animateScene.catch", true, true⟩,
   ⟨"MindAR.unmountCleanup.stopStream.catch", true, false⟩]

/-- The caught-failure sites that raise no alert. -/
def nonAlertedSites : List String :=
  ["App.initLiff.catch",
   "CameraPermission.requestPermission.catch",
   "MindAR.startVideo.stopPreviousStream.catch",
   "MindAR.startVideo.catch.retryRecovered",
   "MindAR.unmountCleanup.stopStream.catch"]

/-- Media environment in which every `getUserMedia` call is rejected
(e.g. a constraint-unsatisfiable request). -/
def rejectAllEnv : VideoEnv := ⟨fun _ => false, fun _ => true⟩

/-- The 640x480 resolution option (second entry of `resolutionOptions`). -/
def res640 : ResolutionOption := ⟨"640x480", 640, 480⟩

/-- The default resolution option (first entry of `resolutionOptions`). -/
def defaultRes : ResolutionOption := ⟨"Default (Fit Screen)", 0, 0⟩

/-- AR environment in which every acquisition succeeds but every
metadata-load/play phase fails, and all later steps would succeed. -/
def leakEnv : AREnv := ⟨fun _ => true, fun _ => false, true, true, true, true⟩

/-- An `onUpdate` event reporting that target 0 was lost. -/
def lostEvent : UpdateEvent := ⟨"updateMatrix", 0, none⟩

/-- Loop environment whose iteration 0 raises inside `processVideo`. -/
def crashLoopEnv : LoopEnv := ⟨fun _ => true, fun _ => false⟩

/-- Loop environment in which no iteration raises. -/
def quietLoopEnv : LoopEnv := ⟨fun _ => false, fun _ => false⟩

/-- A running loop state with a pending frame id 0. -/
def runningLoopState : LoopState := ⟨true, some 0, true, true⟩

/-- A one-camera list whose single camera has a rear-facing label. -/
def rearCameraList : List MediaDeviceInfo := [⟨"cam1", "Back Camera"⟩]

/-
## Theorems
-/

/-- Helper: `addLog` never produces more than 100 entries. -/
theorem addLog_length_le (ts msg : String) (prev : List String) :
    (addLog ts msg prev).length ≤ 100 := by
  simp [addLog]

/-- Helper: folding `addLog` calls preserves the 100-entry bound. -/
theorem foldl_addLog_length_le (calls : List (String × String)) (st : List String)
    (h : st.length ≤ 100) :
    (calls.foldl (fun st c => addLog c.1 c.2 st) st).length ≤ 100 := by
  induction calls generalizing st with
  | nil => simpa using h
  | cons c cs ih => exact ih _ (addLog_length_le c.1 c.2 st)

/-- C1, counterexample: with 100 entries already present, `addLog` drops the
oldest entry, so the buffer is not append-only — the entry "99" is present
before the call and absent after it. -/
theorem addLog_full_buffer_cex :
    "99" ∈ fullLogs ∧ "99" ∉ addLog "t" "m" fullLogs := by decide

/-- C1, amended: each `addLog` call prepends exactly the one new formatted
entry and preserves every previous entry whenever fewer than 100 entries were
present; when 100 (or more) are present, the new entry is prepended and the
buffer is truncated to its first 99 previous entries. -/
theorem addLog_amended (ts msg : String) (prev : List String) :
    (prev.length < 100 → addLog ts msg prev = fmtLog ts msg :: prev) ∧
    (100 ≤ prev.length → addLog ts msg prev = fmtLog ts msg :: prev.take 99) := by
  constructor
  · intro h
    have h99 : prev.length ≤ 99 := Nat.lt_succ_iff.mp h
    simp [addLog, List.take_succ_cons, List.take_of_length_le h99]
  · intro _
    simp [addLog, List.take_succ_cons]

/-- C1, witness: both branches of the amended statement at concrete inputs. -/
theorem addLog_amended_witness :
    addLog "t" "m" ["a"] = fmtLog "t" "m" :: ["a"] ∧
    addLog "t" "m" fullLogs = fmtLog "t" "m" :: fullLogs.take 99 :=
  ⟨(addLog_amended "t" "m" ["a"]).1 (by decide),
   (addLog_amended "t" "m" fullLogs).2 (by decide)⟩

/-- C2: when the first acquisition attempt of `startVideo` fails, exactly one
retry with the width/height constraints removed is made if a specific
resolution had been requested (and the result is that retry's outcome); with
no specific resolution there is no second attempt and `startVideo` returns
false. -/
theorem startVideo_retry_policy (env : VideoEnv) (camId : String)
    (res : ResolutionOption) (hcam : camId ≠ "")
    (hfail : attemptOk env (primaryConstraints camId res) = false) :
    (useSpecificResolution res = true →
      (startVideo env true camId res).attempts =
        [primaryConstraints camId res, relaxedConstraints camId] ∧
      (startVideo env true camId res).ok = attemptOk env (relaxedConstraints camId)) ∧
    (useSpecificResolution res = false →
      (startVideo env true camId res).attempts = [primaryConstraints camId res] ∧
      (startVideo env true camId res).ok = false) := by
  unfold startVideo startVideoRetry
  rw [attemptOk, Bool.and_eq_false_iff] at hfail
  constructor
  · intro hspec
    cases h1 : env.acquire (primaryConstraints camId res) with
    | false =>
      simp [hcam, h1, hspec, attemptOk]
      cases h2 : env.acquire (relaxedConstraints camId) <;>
        cases h3 : env.playback (relaxedConstraints camId) <;> simp
    | true =>
      have h2 : env.playback (primaryConstraints camId res) = false := by
        rcases hfail with h | h
        · rw [h1] at h; cases h
        · exact h
      simp [hcam, h1, h2, hspec, attemptOk]
      cases h3 : env.acquire (relaxedConstraints camId) <;>
        cases h4 : env.playback (relaxedConstraints camId) <;> simp
  · intro hspec
    cases h1 : env.acquire (primaryConstraints camId res) with
    | false => simp [hcam, h1, hspec]
    | true =>
      have h2 : env.playback (primaryConstraints camId res) = false := by
        rcases hfail with h | h
        · rw [h1] at h; cases h
        · exact h
      simp [hcam, h1, h2, hspec]

/-- C2, witness: in an environment rejecting every `getUserMedia` call, a
640x480 request is retried once with relaxed constraints and still fails. -/
theorem startVideo_retry_policy_witness :
    (startVideo rejectAllEnv true "cam" res640).attempts =
      [primaryConstraints "cam" res640, relaxedConstraints "cam"] ∧
    (startVideo rejectAllEnv true "cam" res640).ok =
      attemptOk rejectAllEnv (relaxedConstraints "cam") :=
  (startVideo_retry_policy rejectAllEnv "cam" res640 (by decide) (by decide)).1
    (by decide)

/-- C3, counterexample: the camera-permission gate's catch handler
(CameraPermission.tsx lines 16-18) writes the caught permission failure to the
console log but raises no alert, so not every caught failure is surfaced via a
blocking alert. -/
theorem caughtFailure_unalerted_cex :
    (⟨"CameraPermission.requestPermission.catch", true, false⟩ : FailureHandler)
      ∈ failureHandlers ∧
    (failureHandlers.all fun h => h.logged && h.alerted) = false := by decide

/-- C3, amended: every caught failure is written to the on-screen or console
log, but only the fatal setup/render failures raise a blocking alert; the
LIFF-initialization failure, the camera-permission gate's denial, minor
stream-stop errors, and a constraint failure recovered by the retry are logged
without an alert. -/
theorem caughtFailures_logged_alert_policy :
    (failureHandlers.all fun h =>
      h.logged && (h.alerted || nonAlertedSites.contains h.site)) = true ∧
    (failureHandlers.filter fun h => !h.alerted).map (fun h => h.site) =
      nonAlertedSites := by decide

/-- C4, counterexample: with acquisition succeeding but playback failing at
the default resolution, `handleStartAR` aborts at step 1 and resets the start
flag, yet the acquired stream's tracks are left running (`tracksLive = true`):
the step-1 abort path performs no track cleanup. -/
theorem handleStartAR_step1_no_cleanup_cex :
    leakEnv.acquire (primaryConstraints "cam" defaultRes) = true ∧
    handleStartAR leakEnv true "cam" defaultRes = ⟨[1], false, false, true, true⟩ := by
  constructor
  · rfl
  · rfl

/-- C4, amended: `handleStartAR` runs the seven steps in fixed order and at
the first failing step aborts without executing any later step, resetting the
start flag to false; aborts at steps 2-6 (the steps after step 1 that can
fail) also stop the acquired stream's tracks, while a step-1 abort leaves the
stream untouched. -/
theorem handleStartAR_abort_order (env : AREnv) (hv : Bool) (camId : String)
    (res : ResolutionOption) :
    ((handleStartAR env hv camId res).executedSteps = [1] ∧
      (handleStartAR env hv camId res).startARFlag = false ∧
      (handleStartAR env hv camId res).arReadyFlag = false) ∨
    handleStartAR env hv camId res = ⟨[1, 2], false, false, false, false⟩ ∨
    handleStartAR env hv camId res = ⟨[1, 2, 3, 4], false, false, false, false⟩ ∨
    handleStartAR env hv camId res = ⟨[1, 2, 3, 4, 5], false, false, false, false⟩ ∨
    handleStartAR env hv camId res = ⟨[1, 2, 3, 4, 5, 6], false, false, false, false⟩ ∨
    ((handleStartAR env hv camId res).executedSteps = [1, 2, 3, 4, 5, 6, 7] ∧
      (handleStartAR env hv camId res).startARFlag = true ∧
      (handleStartAR env hv camId res).arReadyFlag = true) := by
  unfold handleStartAR
  cases h1 : (startVideo env.videoEnv hv camId res).ok
  · left; simp [h1]
  · cases h2 : env.canvasOk
    · right; left; simp [h1, h2]
    · cases h3 : env.controllerOk
      · right; right; left; simp [h1, h2, h3]
      · cases h4 : env.registerOk
        · right; right; right; left; simp [h1, h2, h3, h4]
        · cases h5 : env.cameraOk
          · right; right; right; right; left; simp [h1, h2, h3, h4, h5]
          · right; right; right; right; right; simp [h1, h2, h3, h4, h5]

/-- C5: the tracking controller is constructed with `maxTrack = 1`, and the
`onUpdate` callback invokes `updateWorldMatrix` only for events of type
"updateMatrix" whose target index equals the single marker's target index. -/
theorem controller_single_target_gating (vw vh ww wh : Nat)
    (res : ResolutionOption) (marker? : Option ARMarker) (ev : UpdateEvent)
    (hinv : (onUpdate marker? ev).2 = true) :
    (initControllerConfig vw vh ww wh res).maxTrack = 1 ∧
    ∃ m, marker? = some m ∧ ev.type = "updateMatrix" ∧
      m.targetIndex = ev.targetIndex := by
  constructor
  · unfold initControllerConfig
    split <;> rfl
  · cases marker? with
    | none => simp [onUpdate] at hinv
    | some m =>
      unfold onUpdate at hinv
      by_cases h1 : ev.type = "updateMatrix"
      · by_cases h2 : m.targetIndex = ev.targetIndex
        · exact ⟨m, rfl, h1, h2⟩
        · simp [h1, h2] at hinv
      · simp [h1] at hinv

/-- C5, witness: a matching "updateMatrix" event for the freshly initialized
marker does invoke `updateWorldMatrix`, and the conclusion holds there. -/
theorem controller_single_target_gating_witness :
    (initControllerConfig 640 480 800 600 res640).maxTrack = 1 ∧
    ∃ m, (some initMarker : Option ARMarker) = some m ∧
      lostEvent.type = "updateMatrix" ∧ m.targetIndex = lostEvent.targetIndex :=
  controller_single_target_gating 640 480 800 600 res640 (some initMarker)
    lostEvent (by decide)

/-- C6: the unmount cleanup cancels exactly the pending animation-frame id (if
any) and clears the ref, stops every track of the video's stream, and releases
the stream by clearing `srcObject`. -/
theorem unmountCleanup_cancels_and_stops (s : ComponentState) :
    (unmountCleanup s).state.animationFrameId = none ∧
    (unmountCleanup s).cancelledIds = s.animationFrameId.toList ∧
    (unmountCleanup s).state.srcObject = none ∧
    (unmountCleanup s).stoppedTracks = (s.srcObject.getD []).map stopTrack ∧
    ((unmountCleanup s).stoppedTracks.all fun t => !t.live) = true := by
  obtain ⟨af, src, r, sc, c, mk, ct⟩ := s
  cases af <;> cases src <;>
    simp [unmountCleanup, stopTrack, List.all_eq_true, List.mem_map]

/-- Helper: once no frame is scheduled, the refresh driver never runs another
iteration. -/
theorem runLoop_stopped (env : LoopEnv) (fuel m : Nat) (s : LoopState)
    (h : s.animationFrameId = none) : runLoop env fuel m s = (s, []) := by
  cases fuel <;> simp [runLoop, h]

/-- C7: a non-throwing iteration of the animation loop processes exactly one
frame, renders exactly once and schedules exactly one next iteration; a
throwing iteration schedules nothing, resets `arReady` and `startAR` to false,
and from the resulting state the refresh driver never runs another
iteration. -/
theorem animateScene_frame_pacing (env : LoopEnv) (n : Nat) (s : LoopState)
    (hloop : s.isLooping = true) :
    (env.processThrows n = false → env.renderThrows n = false →
      animateScene env n s = ({ s with animationFrameId := some (n + 1) }, ⟨1, 1, 1⟩)) ∧
    ((env.processThrows n = true ∨ env.renderThrows n = true) →
      (animateScene env n s).2.scheduled = 0 ∧
      (animateScene env n s).1 = ⟨false, none, false, false⟩ ∧
      ∀ fuel m, runLoop env fuel m (animateScene env n s).1 =
        ((animateScene env n s).1, [])) := by
  constructor
  · intro hp hr
    simp [animateScene, hloop, hp, hr]
  · intro hthrow
    have hcrash : (animateScene env n s).1 = ⟨false, none, false, false⟩ ∧
        (animateScene env n s).2.scheduled = 0 := by
      rcases hthrow with hp | hr
      · simp [animateScene, hloop, hp]
      · cases hp : env.processThrows n <;> simp [animateScene, hloop, hp, hr]
    refine ⟨hcrash.2, hcrash.1, fun fuel m => ?_⟩
    rw [hcrash.1]
    exact runLoop_stopped env fuel m _ rfl

/-- C7, witness: a quiet iteration from a running state, and a crashing
iteration whose resulting state the driver (given fuel 5) never resumes. -/
theorem animateScene_frame_pacing_witness :
    animateScene quietLoopEnv 0 runningLoopState =
      ({ runningLoopState with animationFrameId := some 1 }, ⟨1, 1, 1⟩) ∧
    (animateScene crashLoopEnv 0 runningLoopState).2.scheduled = 0 ∧
    (animateScene crashLoopEnv 0 runningLoopState).1 = ⟨false, none, false, false⟩ ∧
    runLoop crashLoopEnv 5 1 (animateScene crashLoopEnv 0 runningLoopState).1 =
      ((animateScene crashLoopEnv 0 runningLoopState).1, []) :=
  ⟨(animateScene_frame_pacing quietLoopEnv 0 runningLoopState rfl).1 rfl rfl,
   ((animateScene_frame_pacing crashLoopEnv 0 runningLoopState rfl).2 (Or.inl rfl)).1,
   ((animateScene_frame_pacing crashLoopEnv 0 runningLoopState rfl).2 (Or.inl rfl)).2.1,
   ((animateScene_frame_pacing crashLoopEnv 0 runningLoopState rfl).2 (Or.inl rfl)).2.2 5 1⟩

/-- C8: after any sequence of `addLog` calls starting from the empty initial
state, the logs hold at most 100 entries, and the most recently logged message
sits at index 0 (newest first). -/
theorem logs_bounded_newest_first (calls : List (String × String)) (ts msg : String) :
    (runLogs calls).length ≤ 100 ∧
    (runLogs (calls ++ [(ts, msg)])).head? = some (fmtLog ts msg) := by
  constructor
  · exact foldl_addLog_length_le calls [] (by simp)
  · simp [runLogs, List.foldl_append, addLog, List.take_succ_cons]

/-- C9: with the marker structure initialized, `updateWorldMatrix m` sets the
anchor's visible flag to whether a matrix was delivered, and delivering `null`
leaves the anchor's matrix unchanged. -/
theorem updateWorldMatrix_visibility (m : ARMarker) (wm : Option Mat4) :
    (updateWorldMatrix (some m) wm).map (fun x => x.anchor.visible) =
      some wm.isSome ∧
    (updateWorldMatrix (some m) none).map (fun x => x.anchor.matrix) =
      some m.anchor.matrix := by
  constructor
  · cases wm <;> simp [updateWorldMatrix]
  · simp [updateWorldMatrix]

/-- C10: assuming device ids identify cameras uniquely, `isMirrored` returns
false exactly when the selected camera is present in the list with a non-empty
label containing back/rear/environment (case-insensitively); in every other
case (no selection, empty list, id not found, empty label, front-looking
label) it returns true. -/
theorem isMirrored_characterisation (cameras : List MediaDeviceInfo) (id : String)
    (hnd : (cameras.map MediaDeviceInfo.deviceId).Nodup) :
    isMirrored cameras id = false ↔
      (id ≠ "" ∧ ∃ cam ∈ cameras, cam.deviceId = id ∧ cam.label ≠ "" ∧
        isLikelyRear cam.label = true) := by
  unfold isMirrored
  by_cases h1 : id = ""
  · subst h1; simp
  · by_cases h2 : cameras.isEmpty
    · have hc : cameras = [] := List.isEmpty_iff.mp h2
      subst hc; simp [h1]
    · rw [if_neg (by simp [h1, h2])]
      cases h3 : cameras.find? (fun cam => cam.deviceId == id) with
      | none =>
        simp only [Bool.true_eq_false, false_iff]
        rintro ⟨-, cam, hmem, hdev, -, -⟩
        have := List.find?_eq_none.mp h3 cam hmem
        simp [hdev] at this
      | some cam =>
        have hmem : cam ∈ cameras := List.mem_of_find?_eq_some h3
        have hdev : cam.deviceId = id := by
          have := List.find?_some h3
          simpa using this
        constructor
        · intro hfalse
          refine ⟨h1, cam, hmem, hdev, ?_, ?_⟩
          · intro hlab
            simp [hlab] at hfalse
          · by_cases hlab : cam.label = ""
            · simp [hlab] at hfalse
            · simp [hlab] at hfalse
              simpa using hfalse
        · rintro ⟨-, cam', hmem', hdev', hlab', hrear'⟩
          have hcc : cam' = cam :=
            List.inj_on_of_nodup_map hnd hmem' hmem (by rw [hdev', hdev])
          subst hcc
          simp [hlab', hrear']

/-- C10, witness: a one-camera list with a rear label, where the selected
camera is not mirrored. -/
theorem isMirrored_characterisation_witness :
    isMirrored rearCameraList "cam1" = false ↔
      ("cam1" ≠ "" ∧ ∃ cam ∈ rearCameraList, cam.deviceId = "cam1" ∧
        cam.label ≠ "" ∧ isLikelyRear cam.label = true) :=
  isMirrored_characterisation rearCameraList "cam1" (by decide)

end EggDigital
